import Mathlib

/-!
Shallow embedding of the `starlite-lib` repository/service layer
(`src/starlite_saqlalchemy/repository/sqlalchemy.py`,
`src/starlite_saqlalchemy/testing/generic_mock_repository.py`,
`src/starlite_saqlalchemy/service/generic.py`), together with theorems
settling the frozen claims about filtering, pagination, error wrapping,
the in-memory test double and service registration.

Modelling conventions:
- Python attribute values (datetimes, integers, identifiers) are `Option Int`:
  `none` models Python `None` / SQL `NULL`, `some n` an ordered scalar.
- An object's `__dict__` is an insertion-ordered association list; a mapped
  (class-level) attribute that is not in the instance dict reads as `None`.
- Exceptions are `Except PyError` results; `PyError` records the class of the
  exception and, for `raise ... from exc` chaining, the class of its cause.
- Asynchronous methods are modelled as pure state-passing functions; the
  database/session pair behind the SQL backing is a list of rows, and the
  mock backing's object graph is an explicit heap so that aliasing between
  the caller's argument and the stored entity is observable.
-/

/-- A Python value: `none` is Python `None` / SQL `NULL`. -/
abbrev PyVal := Option Int

/-- Kind (class) of a raised Python exception, covering the classes appearing
in the embedded code paths. -/
inductive ErrKind where
  | integrityError
  | sqlalchemyError
  | conflictError
  | starliteSaqlalchemyError
  | notFoundError
  | keyError
  | attributeError
deriving Repr, DecidableEq

/-- A raised exception: its class plus, when it was raised with
`raise ... from exc`, the class of the chained cause. -/
structure PyError where
  kind : ErrKind
  cause : Option ErrKind
deriving Repr, DecidableEq

/-- Python `dict` update `d[k] = v`: replace the value at the first matching
key (keeping the original key object and its position), else append. -/
def dictSet {κ α : Type} [BEq κ] : List (κ × α) → κ → α → List (κ × α)
  | [], k, v => [(k, v)]
  | (k', v') :: rest, k, v =>
    if k' == k then (k', v) :: rest else (k', v') :: dictSet rest k v

/-- Python `dict.get(k)`: first value stored under an equal key. -/
def dictGet {κ α : Type} [BEq κ] : List (κ × α) → κ → Option α
  | [], _ => none
  | (k', v) :: rest, k => if k' == k then some v else dictGet rest k

/-- Python `del d[k]`: remove the entry, raising `KeyError` when absent. -/
def dictDel {κ α : Type} [BEq κ] : List (κ × α) → κ → Except PyError (List (κ × α))
  | [], _ => .error ⟨.keyError, none⟩
  | (k', v) :: rest, k =>
    if k' == k then .ok rest
    else
      match dictDel rest k with
      | .error e => .error e
      | .ok m => .ok ((k', v) :: m)

/-- Python `k in d`. -/
def dictContains {κ α : Type} [BEq κ] (m : List (κ × α)) (k : κ) : Bool :=
  (dictGet m k).isSome

/-- Python `d.values()` in insertion order. -/
def dictValues {κ α : Type} (m : List (κ × α)) : List α :=
  m.map Prod.snd

/-- An entity instance: its `__dict__` as an association list. A name that is
present with value `none` is an attribute set to Python `None`; a name that is
absent is an attribute not present in the instance dict (a mapped column that
was never set reads as `None` through the class-level descriptor). -/
structure EntityData where
  dict : List (String × PyVal)
deriving Repr, DecidableEq

/-- The attribute names mapped on the model class (`orm.Base` models carry
`id`; `orm.AuditBase` models additionally carry `created` and `updated`). -/
abbrev ModelType := List String

/-- Instance-dict attribute read (`e.__dict__.get(name)`). -/
def EntityData.getattr (e : EntityData) (name : String) : Option PyVal :=
  dictGet e.dict name

/-- Value a mapped attribute reads as: the instance-dict value when set,
otherwise `None` (SQLAlchemy's unset-column behaviour). -/
def EntityData.readAttr (e : EntityData) (name : String) : PyVal :=
  (dictGet e.dict name).join

/-- `setattr(e, name, v)`. -/
def EntityData.setattr (e : EntityData) (name : String) (v : PyVal) : EntityData :=
  ⟨dictSet e.dict name v⟩

/-- Python `hasattr`: true when the attribute is in the instance dict or is a
mapped column on the model class. -/
def hasattr (model_type : ModelType) (e : EntityData) (name : String) : Bool :=
  (dictGet e.dict name).isSome || model_type.contains name

/-- `AbstractRepository.get_id_attribute_value` with the default
`id_attribute = "id"` of `orm.Base`: read the entity's identifier. -/
def get_id_attribute_value (e : EntityData) : PyVal :=
  e.readAttr "id"

/-- `AbstractRepository.set_id_attribute_value`. -/
def set_id_attribute_value (id_ : PyVal) (e : EntityData) : EntityData :=
  e.setattr "id" id_

/-- Modelled from the spec: `AbstractRepository.check_not_found`
(`repository/abc.py` is not in the corpus) — "NotFoundError: requested
identifier absent; surfaced to caller as a distinct kind". Returns the
instance, raising `NotFoundError` when it is `None`. -/
def check_not_found {α : Type} : Option α → Except PyError α
  | none => .error ⟨.notFoundError, none⟩
  | some a => .ok a

/-- `wrap_sqlalchemy_exception` as a transformer on outcomes of the wrapped
block: `IntegrityError` is re-raised as `ConflictError` chained from it,
any other `SQLAlchemyError` as `StarliteSaqlalchemyError` chained from it,
and every other outcome (success or a non-engine exception) passes through. -/
def wrap_sqlalchemy_exception {α : Type} : Except PyError α → Except PyError α
  | .ok a => .ok a
  | .error e =>
    if e.kind = .integrityError then .error ⟨.conflictError, some e.kind⟩
    else if e.kind = .sqlalchemyError then
      .error ⟨.starliteSaqlalchemyError, some e.kind⟩
    else .error e

/-- Modelled from the spec: the filter value objects of
`repository/filters.py` (not in the corpus) — "*RangeFilter*: field name +
optional lower/upper bound", "*MembershipFilter*: field name + set of allowed
values", "*PageFilter*: limit + offset"; field order follows the positional
match patterns `BeforeAfter(field_name, before, after)`,
`CollectionFilter(field_name, values)`, `LimitOffset(limit, offset)` in
`repository/sqlalchemy.py`. -/
inductive FilterTypes where
  | beforeAfter (field_name : String) (before after : Option Int)
  | collectionFilter (field_name : String) (values : List Int)
  | limitOffset (limit offset : Nat)
deriving Repr, DecidableEq

/-- A SQLAlchemy `Select` over the model: accumulated `WHERE` predicates plus
`LIMIT`/`OFFSET` state. -/
structure Select where
  wheres : List (EntityData → Bool)
  limit : Option Nat
  offset : Nat

/-- `select_.where(p)`. -/
def Select.addWhere (s : Select) (p : EntityData → Bool) : Select :=
  ⟨s.wheres ++ [p], s.limit, s.offset⟩

/-- `select_.limit(l)`. -/
def Select.withLimit (s : Select) (l : Nat) : Select :=
  ⟨s.wheres, some l, s.offset⟩

/-- `select_.offset(o)`. -/
def Select.withOffset (s : Select) (o : Nat) : Select :=
  ⟨s.wheres, s.limit, o⟩

/-- SQL `<` under three-valued logic: a comparison involving `NULL` does not
select the row. -/
def sqlLt (a b : PyVal) : Bool :=
  match a, b with
  | some x, some y => x < y
  | _, _ => false

/-- SQL `>` under three-valued logic. -/
def sqlGt (a b : PyVal) : Bool :=
  match a, b with
  | some x, some y => x > y
  | _, _ => false

/-- SQL `=` under three-valued logic. -/
def sqlEq (a b : PyVal) : Bool :=
  match a, b with
  | some x, some y => x == y
  | _, _ => false

/-- SQL `IN`: `NULL` is never in the list. -/
def sqlIn (a : PyVal) (values : List Int) : Bool :=
  match a with
  | some x => values.contains x
  | none => false

/-- `getattr(self.model_type, name)`: the column expression for a mapped
attribute, `AttributeError` when the model has no such attribute. The column
expression is identified by its field name. -/
def getattrModel (model_type : ModelType) (name : String) : Except PyError String :=
  if model_type.contains name then .ok name else .error ⟨.attributeError, none⟩

/-- `SQLAlchemyRepository._create_select_for_model`: `select(self.model_type)`. -/
def _create_select_for_model : Select :=
  ⟨[], none, 0⟩

/-- `SQLAlchemyRepository._apply_limit_offset_pagination`:
`select_.limit(limit).offset(offset)`. -/
def _apply_limit_offset_pagination (limit offset : Nat) (select_ : Select) : Select :=
  (select_.withLimit limit).withOffset offset

/-- `SQLAlchemyRepository._filter_in_collection`: no-op when `values` is
empty (the column attribute is not even looked up), otherwise a `WHERE
field IN values` clause. -/
def _filter_in_collection (model_type : ModelType) (field_name : String)
    (values : List Int) (select_ : Select) : Except PyError Select :=
  if values.isEmpty then .ok select_
  else
    match getattrModel model_type field_name with
    | .error e => .error e
    | .ok field => .ok (select_.addWhere fun e => sqlIn (e.readAttr field) values)

/-- `SQLAlchemyRepository._filter_on_datetime_field`, faithful to the source:
when `before` is supplied a `field < before` clause is added, and when
`after` is supplied the source adds `field > before` — comparing against the
`before` bound, not `after` (line 361 of `repository/sqlalchemy.py`). -/
def _filter_on_datetime_field (model_type : ModelType) (field_name : String)
    (before after : Option Int) (select_ : Select) : Except PyError Select :=
  match getattrModel model_type field_name with
  | .error e => .error e
  | .ok field =>
    let select_ :=
      if before.isSome then select_.addWhere (fun e => sqlLt (e.readAttr field) before)
      else select_
    if after.isSome then
      .ok (select_.addWhere fun e => sqlGt (e.readAttr field) before)
    else .ok select_

/-- `SQLAlchemyRepository._filter_select_by_kwargs`: one `WHERE field = value`
clause per keyword pair, looking each attribute up on the model type. -/
def _filter_select_by_kwargs (model_type : ModelType) (select_ : Select) :
    List (String × PyVal) → Except PyError Select
  | [] => .ok select_
  | (key, val) :: rest =>
    match getattrModel model_type key with
    | .error e => .error e
    | .ok field =>
      _filter_select_by_kwargs model_type
        (select_.addWhere fun e => sqlEq (e.readAttr field) val) rest

/-- One arm of the `match filter_` statement in
`SQLAlchemyRepository._filter_for_list`. The filter type is a closed union,
so the source's unreachable `case _` (a `StarliteSaqlalchemyError`) has no
counterpart. -/
def applyFilter (model_type : ModelType) (filter_ : FilterTypes)
    (select_ : Select) : Except PyError Select :=
  match filter_ with
  | .limitOffset limit offset => .ok (_apply_limit_offset_pagination limit offset select_)
  | .beforeAfter field_name before after =>
    _filter_on_datetime_field model_type field_name before after select_
  | .collectionFilter field_name values =>
    _filter_in_collection model_type field_name values select_

/-- `SQLAlchemyRepository._filter_for_list`: fold the filters over the select. -/
def _filter_for_list (model_type : ModelType) :
    List FilterTypes → Select → Except PyError Select
  | [], select_ => .ok select_
  | filter_ :: rest, select_ =>
    match applyFilter model_type filter_ select_ with
    | .error e => .error e
    | .ok select_ => _filter_for_list model_type rest select_

/-- Rows of the filtered result set before pagination (`WHERE` clauses only). -/
def matchedRows (select_ : Select) (db : List EntityData) : List EntityData :=
  db.filter fun e => select_.wheres.all fun p => p e

/-- `OFFSET`/`LIMIT` applied to a result set: skip `offset` rows, then return
at most `limit` rows. -/
def applyPagination (select_ : Select) (rows : List EntityData) : List EntityData :=
  match select_.limit with
  | some l => (rows.drop select_.offset).take l
  | none => rows.drop select_.offset

/-- Execution of a select against the table: `WHERE`, then `OFFSET`/`LIMIT`. -/
def executeSelect (select_ : Select) (db : List EntityData) : List EntityData :=
  applyPagination select_ (matchedRows select_ db)

/-- `Result.scalar_one_or_none()`: `None` for no rows, the row when unique,
a `SQLAlchemyError` (`MultipleResultsFound`) otherwise. -/
def scalar_one_or_none (rows : List EntityData) : Except PyError (Option EntityData) :=
  match rows with
  | [] => .ok none
  | [e] => .ok (some e)
  | _ => .error ⟨.sqlalchemyError, none⟩

/-- `SQLAlchemyRepository.list`: build the select, apply the positional
filters, then the keyword equality filters — all outside the
`wrap_sqlalchemy_exception` block — and only then execute under the wrapper
(expunging each instance has no observable effect in the model). -/
def SQLAlchemyRepository.list (model_type : ModelType) (filters : List FilterTypes)
    (kwargs : List (String × PyVal)) (db : List EntityData) :
    Except PyError (List EntityData) :=
  match _filter_for_list model_type filters _create_select_for_model with
  | .error e => .error e
  | .ok select_ =>
    match _filter_select_by_kwargs model_type select_ kwargs with
    | .error e => .error e
    | .ok select_ => wrap_sqlalchemy_exception (.ok (executeSelect select_ db))

/-- The result-consuming loop of `SQLAlchemyRepository.list_and_count`: each
row is an instance paired with its window-count column; the count is taken
from the first row and stays `0` when the result has no rows. -/
def lacLoop : List (EntityData × Nat) → List EntityData × Nat
  | [] => ([], 0)
  | (e, c) :: rest => (e :: rest.map Prod.fst, c)

/-- `SQLAlchemyRepository.list_and_count`: a select of the model together
with `over(count(id))` — the window count equals the number of rows matching
the `WHERE` clauses before `LIMIT`/`OFFSET` is applied, and every surviving
row carries it — with the same filter pipeline as `list`. -/
def SQLAlchemyRepository.list_and_count (model_type : ModelType)
    (filters : List FilterTypes) (kwargs : List (String × PyVal))
    (db : List EntityData) : Except PyError (List EntityData × Nat) :=
  match _filter_for_list model_type filters _create_select_for_model with
  | .error e => .error e
  | .ok select_ =>
    match _filter_select_by_kwargs model_type select_ kwargs with
    | .error e => .error e
    | .ok select_ =>
      wrap_sqlalchemy_exception
        (.ok (lacLoop ((applyPagination select_ (matchedRows select_ db)).map
          fun e => (e, (matchedRows select_ db).length))))

/-- `SQLAlchemyRepository.get`: select filtered on the id attribute (inside
the wrapper, unlike `list`), `scalar_one_or_none`, then `check_not_found`. -/
def SQLAlchemyRepository.get (model_type : ModelType) (id_ : PyVal)
    (db : List EntityData) : Except PyError EntityData :=
  wrap_sqlalchemy_exception
    (match _filter_select_by_kwargs model_type _create_select_for_model [("id", id_)] with
     | .error e => .error e
     | .ok select_ =>
       match scalar_one_or_none (executeSelect select_ db) with
       | .error e => .error e
       | .ok inst => check_not_found inst)

/-- `entityId e`: the value of the entity's primary-key attribute. -/
def entityId (e : EntityData) : PyVal :=
  get_id_attribute_value e

/-- Whether the table holds a row whose primary key equals `idv` under SQL
equality (a `NULL` identifier matches no row). -/
def sqlHasId (db : List EntityData) (idv : PyVal) : Bool :=
  db.any fun e => sqlEq (entityId e) idv

/-- `orm.touch_updated_timestamp` acting on a dirty instance at flush time:
bump `updated` when the model has that attribute. -/
def touch_updated_timestamp (model_type : ModelType) (now : Int)
    (e : EntityData) : EntityData :=
  if hasattr model_type e "updated" then e.setattr "updated" (some now) else e

/-- Column defaults applied at `INSERT` flush for a mapped column the
instance has no value for (`id` from its factory default, `created` and
`updated` from the clock). -/
def applyColumnDefault (model_type : ModelType) (name : String) (v : Int)
    (e : EntityData) : EntityData :=
  if model_type.contains name && (e.readAttr name).isNone then
    e.setattr name (some v)
  else e

/-- Defaults for all three server-populated columns on insert. -/
def applyInsertDefaults (model_type : ModelType) (genId now : Int)
    (e : EntityData) : EntityData :=
  applyColumnDefault model_type "updated" now
    (applyColumnDefault model_type "created" now
      (applyColumnDefault model_type "id" genId e))

/-- Flush of a new (pending) instance: populate column defaults and `INSERT`,
raising `IntegrityError` on a duplicate primary key. Shared by
`SQLAlchemyRepository.add` (`session.add` path) and the insert arm of
`session.merge` used by `SQLAlchemyRepository.upsert`. -/
def sqlInsert (model_type : ModelType) (data : EntityData) (genId now : Int)
    (db : List EntityData) : Except PyError (EntityData × List EntityData) :=
  let inst := applyInsertDefaults model_type genId now data
  if sqlHasId db (entityId inst) then .error ⟨.integrityError, none⟩
  else .ok (inst, db ++ [inst])

/-- Replace the rows whose primary key equals `data`'s with `data`
(the `UPDATE` emitted when flushing a merged dirty instance). -/
def sqlReplace (db : List EntityData) (data : EntityData) : List EntityData :=
  db.map fun e => if sqlEq (entityId e) (entityId data) then data else e

/-- `SQLAlchemyRepository.add`: attach with the `add` strategy, flush,
refresh, expunge (the latter two without observable effect here). -/
def SQLAlchemyRepository.add (model_type : ModelType) (data : EntityData)
    (genId now : Int) (db : List EntityData) :
    Except PyError (EntityData × List EntityData) :=
  wrap_sqlalchemy_exception (sqlInsert model_type data genId now db)

/-- `SQLAlchemyRepository.update`: `get` by the data's identifier (raising
`NotFoundError` when absent), then merge the inbound data onto the session
and flush — the merged instance is dirty, so the `before_flush` hook bumps
its `updated` timestamp. -/
def SQLAlchemyRepository.update (model_type : ModelType) (data : EntityData)
    (now : Int) (db : List EntityData) :
    Except PyError (EntityData × List EntityData) :=
  wrap_sqlalchemy_exception
    (match SQLAlchemyRepository.get model_type (get_id_attribute_value data) db with
     | .error e => .error e
     | .ok _ =>
       let inst := touch_updated_timestamp model_type now data
       .ok (inst, sqlReplace db inst))

/-- `SQLAlchemyRepository.upsert`: attach with the `merge` strategy and
flush — when a row with the data's primary key exists the merged instance is
dirty and updated in place, otherwise a new instance is inserted. -/
def SQLAlchemyRepository.upsert (model_type : ModelType) (data : EntityData)
    (genId now : Int) (db : List EntityData) :
    Except PyError (EntityData × List EntityData) :=
  wrap_sqlalchemy_exception
    (if sqlHasId db (get_id_attribute_value data) then
      let inst := touch_updated_timestamp model_type now data
      .ok (inst, sqlReplace db inst)
    else sqlInsert model_type data genId now db)

/-- `SQLAlchemyRepository.delete`: `get` the instance (raising
`NotFoundError` when absent), delete it from the session and flush. -/
def SQLAlchemyRepository.delete (model_type : ModelType) (id_ : PyVal)
    (db : List EntityData) : Except PyError (EntityData × List EntityData) :=
  wrap_sqlalchemy_exception
    (match SQLAlchemyRepository.get model_type id_ db with
     | .error e => .error e
     | .ok inst =>
       .ok (inst, db.filter fun e => !sqlEq (entityId e) (entityId inst)))

/-- A reference into the mock backing's object heap. Distinct references are
distinct Python objects; the heap makes aliasing between a method's argument
and the stored entity observable. -/
abbrev Ref := Nat

/-- State of a `GenericMockRepository[Model]` parametrization: the object
heap plus the class-level `collection` dict mapping identifier values to the
stored objects. -/
structure MockState where
  heap : Ref → EntityData
  collection : List (PyVal × Ref)

/-- Dereference an object. -/
def MockState.read (s : MockState) (r : Ref) : EntityData :=
  s.heap r

/-- Mutate the object behind a reference in place. -/
def MockState.write (s : MockState) (r : Ref) (e : EntityData) : MockState :=
  ⟨fun i => if i = r then e else s.heap i, s.collection⟩

/-- Replace the collection dict. -/
def MockState.withCollection (s : MockState) (m : List (PyVal × Ref)) : MockState :=
  ⟨s.heap, m⟩

/-- `GenericMockRepository._find_or_raise_not_found`:
`check_not_found(self.collection.get(id_))`. -/
def GenericMockRepository._find_or_raise_not_found (s : MockState) (id_ : PyVal) :
    Except PyError Ref :=
  check_not_found (dictGet s.collection id_)

/-- `GenericMockRepository.add`: reject an identified item unless `allow_id`,
stamp `created`/`updated` with the clock when the model has both audit
columns, draw a fresh identifier from the id factory unless `allow_id`, and
store the argument object itself under `data.id`. `newId` is the value the
id factory returns, `now` the clock. -/
def GenericMockRepository.add (model_type : ModelType) (s : MockState)
    (dataRef : Ref) (allow_id : Bool) (newId now : Int) :
    Except PyError (Ref × MockState) :=
  let data := s.read dataRef
  if allow_id = false && (get_id_attribute_value data).isSome then
    .error ⟨.conflictError, none⟩
  else
    let stamped :=
      if hasattr model_type data "updated" && hasattr model_type data "created" then
        (data.setattr "updated" (some now)).setattr "created" (some now)
      else data
    let withId :=
      if allow_id = false then set_id_attribute_value (some newId) stamped
      else stamped
    let s := s.write dataRef withId
    .ok (dataRef,
      s.withCollection (dictSet s.collection (get_id_attribute_value withId) dataRef))

/-- `GenericMockRepository.get`: `_find_or_raise_not_found`. -/
def GenericMockRepository.get (s : MockState) (id_ : PyVal) : Except PyError Ref :=
  GenericMockRepository._find_or_raise_not_found s id_

/-- `GenericMockRepository.delete`, faithful to the source's
`try: return self._find_or_raise_not_found(id_)` /
`finally: del self.collection[id_]`: the `del` in the `finally` block runs in
every case, and an exception it raises (a `KeyError` when the identifier is
absent) replaces the exception in flight from the `try` block. -/
def GenericMockRepository.delete (s : MockState) (id_ : PyVal) :
    Except PyError (Ref × MockState) :=
  match GenericMockRepository._find_or_raise_not_found s id_,
      dictDel s.collection id_ with
  | .ok r, .ok m => .ok (r, s.withCollection m)
  | .ok _, .error e => .error e
  | .error _, .error e => .error e
  | .error e, .ok _ => .error e

/-- `GenericMockRepository.list` as written: the positional filters and
keyword equality filters are accepted and ignored, and the entire collection
is returned. -/
def GenericMockRepository.list (s : MockState) (_filters : List FilterTypes)
    (_kwargs : List (String × PyVal)) : List Ref :=
  dictValues s.collection

/-- Copy the (key, value) pairs of the argument's `__dict__` onto the stored
item with `setattr`, skipping keys that start with an underscore — the loop
body of `GenericMockRepository.update`. -/
def copyPublicAttrs : List (String × PyVal) → EntityData → EntityData
  | [], item => item
  | (k, v) :: rest, item =>
    copyPublicAttrs rest (if k.startsWith "_" then item else item.setattr k v)

/-- `GenericMockRepository.update`: find the stored item by the argument's
identifier (raising `NotFoundError` when absent), mutate the argument object
itself by stamping `data.updated = now` when it has that attribute, then copy
every non-underscore attribute of the argument's `__dict__` onto the stored
item, and return the stored item. -/
def GenericMockRepository.update (model_type : ModelType) (s : MockState)
    (dataRef : Ref) (now : Int) : Except PyError (Ref × MockState) :=
  let data := s.read dataRef
  match GenericMockRepository._find_or_raise_not_found s (get_id_attribute_value data) with
  | .error e => .error e
  | .ok itemRef =>
    let s :=
      if hasattr model_type data "updated" then
        s.write dataRef (data.setattr "updated" (some now))
      else s
    let s := s.write itemRef (copyPublicAttrs (s.read dataRef).dict (s.read itemRef))
    .ok (itemRef, s)

/-- `GenericMockRepository.upsert`: `update` when the argument's identifier
is a key of the collection, else `add` with `allow_id=True`. -/
def GenericMockRepository.upsert (model_type : ModelType) (s : MockState)
    (dataRef : Ref) (newId now : Int) : Except PyError (Ref × MockState) :=
  if dictContains s.collection (get_id_attribute_value (s.read dataRef)) then
    GenericMockRepository.update model_type s dataRef now
  else
    GenericMockRepository.add model_type s dataRef true newId now

/-- A concrete service class declaration: the module it is declared in and
its class name. -/
structure ServiceClass where
  module : String
  name : String
deriving Repr, DecidableEq

/-- The process-wide service identity map. Modelled from the spec:
`constants.SERVICE_OBJECT_IDENTITY_MAP` (`constants.py` is not in the
corpus) is "process-wide, populated once per concrete service type at
definition time; maps a stable fully-qualified name to the type". -/
abbrev IdentityMap := List (String × ServiceClass)

/-- `cls.__id__ = f"{cls.__module__}.{cls.__name__}"`: the stable identity of
a service class, its fully-qualified declaration path. -/
def Service.service_id (c : ServiceClass) : String :=
  c.module ++ "." ++ c.name

/-- `Service.__init_subclass__`: compute the class's identity and register
the class under it in the identity map. -/
def Service.init_subclass (m : IdentityMap) (c : ServiceClass) : IdentityMap :=
  dictSet m (Service.service_id c) c

/-- The identity map after a sequence of concrete service class declarations
has been processed, each triggering `__init_subclass__` at definition time;
the map starts empty before the first declaration. -/
def Service.register_all (decls : List ServiceClass) : IdentityMap :=
  decls.foldl Service.init_subclass []

/-! ## General lemmas about the embedded dictionaries, heap and filters -/

/-- Looking a key up right after storing it finds the stored value. -/
theorem dictGet_dictSet_self {κ α : Type} [BEq κ] [LawfulBEq κ]
    (m : List (κ × α)) (k : κ) (v : α) : dictGet (dictSet m k v) k = some v := by
  induction m with
  | nil => simp [dictSet, dictGet]
  | cons p rest ih =>
    obtain ⟨k0, v0⟩ := p
    cases h0 : k0 == k with
    | true => simp [dictSet, dictGet, h0]
    | false => simp [dictSet, dictGet, h0, ih]

/-- Storing under a different key leaves a lookup unchanged. -/
theorem dictGet_dictSet_ne {κ α : Type} [BEq κ] [LawfulBEq κ]
    (m : List (κ × α)) (k' k : κ) (v : α) (h : k' ≠ k) :
    dictGet (dictSet m k' v) k = dictGet m k := by
  induction m with
  | nil => simp [dictSet, dictGet, h]
  | cons p rest ih =>
    obtain ⟨k0, v0⟩ := p
    cases h0 : k0 == k' with
    | true =>
      have hk : (k0 == k) = false := by
        rw [beq_iff_eq] at h0
        simp [h0, h]
      simp [dictSet, dictGet, h0, hk]
    | false =>
      cases hk : k0 == k with
      | true => simp [dictSet, dictGet, h0, hk]
      | false => simp [dictSet, dictGet, h0, hk, ih]

/-- Storing (under any key) preserves the presence of a key. -/
theorem dictGet_dictSet_isSome {κ α : Type} [BEq κ]
    (m : List (κ × α)) (k' k : κ) (v : α)
    (h : (dictGet m k).isSome = true) :
    (dictGet (dictSet m k' v) k).isSome = true := by
  induction m with
  | nil => simp [dictGet] at h
  | cons p rest ih =>
    obtain ⟨k0, v0⟩ := p
    cases h0 : k0 == k' with
    | true =>
      cases hk : k0 == k with
      | true => simp [dictSet, dictGet, h0, hk]
      | false =>
        simp only [dictGet, hk, Bool.false_eq_true, if_false] at h
        simp [dictSet, dictGet, h0, hk, h]
    | false =>
      cases hk : k0 == k with
      | true => simp [dictSet, dictGet, h0, hk]
      | false =>
        simp only [dictGet, hk, Bool.false_eq_true, if_false] at h
        simp [dictSet, dictGet, h0, hk, ih h]

/-- A key of the updated dictionary is a key of the original or the stored key. -/
theorem mem_keys_dictSet {κ α : Type} [BEq κ] [LawfulBEq κ]
    (m : List (κ × α)) (k : κ) (v : α) (a : κ)
    (h : a ∈ (dictSet m k v).map Prod.fst) :
    a ∈ m.map Prod.fst ∨ a = k := by
  induction m with
  | nil => simpa [dictSet] using h
  | cons p rest ih =>
    obtain ⟨k0, v0⟩ := p
    cases h0 : k0 == k with
    | true =>
      simp only [dictSet, h0, if_true, List.map_cons, List.mem_cons] at h
      rcases h with h | h
      · exact Or.inl (by simp [h])
      · exact Or.inl (by simp [h])
    | false =>
      simp only [dictSet, h0, Bool.false_eq_true, if_false, List.map_cons,
        List.mem_cons] at h
      rcases h with h | h
      · exact Or.inl (by simp [h])
      · rcases ih h with h' | h'
        · exact Or.inl (by simp [h'])
        · exact Or.inr h'

/-- A dictionary update keeps the keys duplicate-free. -/
theorem dictSet_keys_nodup {κ α : Type} [BEq κ] [LawfulBEq κ]
    (m : List (κ × α)) (k : κ) (v : α)
    (h : (m.map Prod.fst).Nodup) : ((dictSet m k v).map Prod.fst).Nodup := by
  induction m with
  | nil => simp [dictSet]
  | cons p rest ih =>
    obtain ⟨k0, v0⟩ := p
    simp only [List.map_cons, List.nodup_cons] at h
    cases h0 : k0 == k with
    | true => simpa [dictSet, h0] using h
    | false =>
      simp only [dictSet, h0, Bool.false_eq_true, if_false, List.map_cons,
        List.nodup_cons]
      refine ⟨fun hmem => ?_, ih h.2⟩
      rcases mem_keys_dictSet rest k v k0 hmem with h' | h'
      · exact h.1 h'
      · rw [h'] at h0
        simp at h0

/-- Writing a heap cell and reading it back. -/
theorem MockState.read_write_self (s : MockState) (r : Ref) (e : EntityData) :
    (s.write r e).read r = e := by
  simp [MockState.read, MockState.write]

/-- Writing one heap cell leaves the others unchanged. -/
theorem MockState.read_write_ne (s : MockState) (r r' : Ref) (e : EntityData)
    (h : r' ≠ r) : (s.write r e).read r' = s.read r' := by
  simp [MockState.read, MockState.write, h]

/-! ## Concrete sample data used by the claim theorems -/

/-- A model with an `id` and a `dob` datetime column. -/
def authorModel : ModelType := ["id", "dob"]

/-- A stored record whose `dob` field is 5. -/
def authorDob5 : EntityData := ⟨[("id", some 1), ("dob", some 5)]⟩

/-- A minimal model with only the `id` column. -/
def idModel : ModelType := ["id"]

/-- A stored record with identifier 1. -/
def entity1 : EntityData := ⟨[("id", some 1)]⟩

/-- A mock backing with an empty collection. -/
def mockEmpty : MockState := ⟨fun _ => ⟨[]⟩, []⟩

/-- A mock backing whose heap holds an argument object with identifier 1 but
whose collection is empty. -/
def mockAbsent : MockState := ⟨fun _ => ⟨[("id", some 1)]⟩, []⟩

/-- A mock backing storing one record (identifier 1, at heap cell 0). -/
def mockOne : MockState := ⟨fun _ => ⟨[("id", some 1)]⟩, [(some 1, 0)]⟩

/-! ## Claim theorems -/

/-- Claim C1: the claim says a query with RangeFilter bounds before=B and
after=A returns exactly the records whose field lies strictly between A and
B, and that a single supplied bound applies only its own inequality. The
code instead compares against `before` in the `after` branch
(`_filter_on_datetime_field`, line 361), so a record with field value 5 and
bounds before=10, after=0 — which the claim selects — is filtered out
(`dob < 10 AND dob > 10` is unsatisfiable), and a query with only after=0
supplied compares the field against `None` and also returns nothing. -/
theorem beforeAfter_filter_diverges_from_claim_on_field5 :
    SQLAlchemyRepository.list authorModel
        [FilterTypes.beforeAfter "dob" (some 10) (some 0)] [] [authorDob5] =
      .ok [] ∧
    SQLAlchemyRepository.list authorModel
        [FilterTypes.beforeAfter "dob" none (some 0)] [] [authorDob5] =
      .ok [] := by
  constructor <;> rfl

/-- Claim C2: the claim says `list_and_count` with PageFilter(limit=L,
offset=O) over N matching records returns min(L, max(0, N-O)) records and a
count of N for every L and O, "including choices that make the returned page
empty". The code reads the window count off the first returned row and
leaves it 0 when the page is empty, so for N=1, L=1, O=0 it returns the
record with count 1 (as claimed), but for N=1, L=1, O=1 — an empty page — it
returns count 0, not 1. -/
theorem list_and_count_zero_count_on_empty_page :
    SQLAlchemyRepository.list_and_count idModel
        [FilterTypes.limitOffset 1 0] [] [entity1] = .ok ([entity1], 1) ∧
    SQLAlchemyRepository.list_and_count idModel
        [FilterTypes.limitOffset 1 1] [] [entity1] = .ok ([], 0) := by
  constructor <;> rfl

/-- Claim C3: the claim says `get`, `update` and `delete` fail with
NotFoundError — that exact kind — on every absent identifier, in both
backings. That holds for SQL `get`/`update`/`delete` and for the mock
`get`/`update`, but the mock `delete` runs `del self.collection[id_]` in a
`finally` block, whose `KeyError` (the identifier is absent) replaces the
`NotFoundError` in flight, so mock `delete` on an absent identifier raises
`KeyError` instead. -/
theorem absent_id_errors_and_mock_delete_keyerror :
    GenericMockRepository.get mockEmpty (some 1) =
      .error ⟨.notFoundError, none⟩ ∧
    GenericMockRepository.update idModel mockAbsent 0 77 =
      .error ⟨.notFoundError, none⟩ ∧
    SQLAlchemyRepository.get idModel (some 1) [] =
      .error ⟨.notFoundError, none⟩ ∧
    SQLAlchemyRepository.update idModel entity1 77 [] =
      .error ⟨.notFoundError, none⟩ ∧
    SQLAlchemyRepository.delete idModel (some 1) [] =
      .error ⟨.notFoundError, none⟩ ∧
    GenericMockRepository.delete mockEmpty (some 1) =
      .error ⟨.keyError, none⟩ := by
  refine ⟨rfl, rfl, rfl, rfl, rfl, rfl⟩

/-- Claim C4: the claim says the in-memory backing's `list` honours the
abstraction's filter semantics. The mock `list` ignores every filter and
returns the whole collection: with one stored record, a PageFilter with
limit 0 and a MembershipFilter excluding the record both still return the
record, while the SQL backing — the contract — returns the empty page for
the same inputs. -/
theorem mock_list_ignores_filters :
    GenericMockRepository.list mockOne [FilterTypes.limitOffset 0 0] [] = [0] ∧
    GenericMockRepository.list mockOne
      [FilterTypes.collectionFilter "id" [99]] [] = [0] ∧
    SQLAlchemyRepository.list idModel [FilterTypes.limitOffset 0 0] []
      [entity1] = .ok [] ∧
    SQLAlchemyRepository.list idModel [FilterTypes.collectionFilter "id" [99]]
      [] [entity1] = .ok [] := by
  refine ⟨rfl, rfl, rfl, rfl⟩

/-- Processing an empty-valued membership filter leaves the select (and the
rest of the filter pipeline) untouched, wherever it sits in the filter list. -/
theorem filter_for_list_skip_empty_membership (mt : ModelType) (fn : String)
    (fs2 : List FilterTypes) :
    ∀ (fs1 : List FilterTypes) (s : Select),
      _filter_for_list mt (fs1 ++ FilterTypes.collectionFilter fn [] :: fs2) s =
        _filter_for_list mt (fs1 ++ fs2) s := by
  intro fs1
  induction fs1 with
  | nil => intro s; rfl
  | cons f rest ih =>
    intro s
    simp only [List.cons_append, _filter_for_list]
    cases applyFilter mt f s with
    | error e => rfl
    | ok s' => exact ih s'

/-- Claim C5: for every backing table, model, field name, surrounding
filters and keyword filters, a `list` query containing a MembershipFilter
with an empty value set returns exactly what the same query without that
filter returns — the empty-set membership filter is an identity on the
query, never a filter that excludes everything. -/
theorem empty_membership_filter_is_identity (mt : ModelType) (fn : String)
    (fs1 fs2 : List FilterTypes) (kwargs : List (String × PyVal))
    (db : List EntityData) :
    SQLAlchemyRepository.list mt
        (fs1 ++ FilterTypes.collectionFilter fn [] :: fs2) kwargs db =
      SQLAlchemyRepository.list mt (fs1 ++ fs2) kwargs db := by
  unfold SQLAlchemyRepository.list
  rw [filter_for_list_skip_empty_membership]

/-- Whether an exception kind is an engine-level (SQLAlchemy) error. -/
def isEngineError (k : ErrKind) : Bool :=
  k == .integrityError || k == .sqlalchemyError

/-- Claim C6: every engine-level error crossing
`wrap_sqlalchemy_exception` is re-raised as a domain error chained to the
original as its cause: an integrity violation becomes ConflictError, any
other engine error becomes the generic repository error
(`StarliteSaqlalchemyError`), and no engine error escapes unwrapped. -/
theorem engine_errors_wrapped_and_chained {α : Type} (e : PyError)
    (h : isEngineError e.kind = true) :
    ∃ e' : PyError,
      wrap_sqlalchemy_exception (Except.error e : Except PyError α) =
        .error e' ∧
      e'.cause = some e.kind ∧
      isEngineError e'.kind = false ∧
      (e.kind = .integrityError → e'.kind = .conflictError) ∧
      (e.kind = .sqlalchemyError → e'.kind = .starliteSaqlalchemyError) := by
  obtain ⟨k, c⟩ := e
  cases k <;> simp_all [isEngineError, wrap_sqlalchemy_exception]

/-- Witness for C6 at a concrete integrity error. -/
theorem engine_errors_wrapped_and_chained_witness :
    ∃ e' : PyError,
      wrap_sqlalchemy_exception
          (Except.error ⟨.integrityError, none⟩ : Except PyError Unit) =
        .error e' ∧
      e'.cause = some ErrKind.integrityError ∧
      isEngineError e'.kind = false ∧
      (ErrKind.integrityError = ErrKind.integrityError →
        e'.kind = .conflictError) ∧
      (ErrKind.integrityError = ErrKind.sqlalchemyError →
        e'.kind = .starliteSaqlalchemyError) :=
  engine_errors_wrapped_and_chained ⟨.integrityError, none⟩ (by decide)

/-- `SQLAlchemyRepository.get` on a model that maps `id` reduces to a
unique-row lookup over the table. -/
theorem sqla_get_eq (mt : ModelType) (idv : PyVal) (db : List EntityData)
    (hmt : mt.contains "id" = true) :
    SQLAlchemyRepository.get mt idv db =
      wrap_sqlalchemy_exception
        (match scalar_one_or_none (db.filter fun e => sqlEq (entityId e) idv) with
         | .error e => .error e
         | .ok inst => check_not_found inst) := by
  have hmem : "id" ∈ mt := by simpa using hmt
  simp [SQLAlchemyRepository.get, _filter_select_by_kwargs, getattrModel, hmem,
    _create_select_for_model, Select.addWhere, executeSelect, matchedRows,
    applyPagination, entityId, get_id_attribute_value, EntityData.readAttr]

/-- When exactly one row matches the identifier, `SQLAlchemyRepository.get`
succeeds. -/
theorem sqla_get_ok_of_unique (mt : ModelType) (idv : PyVal)
    (db : List EntityData) (hmt : mt.contains "id" = true)
    (hid : sqlHasId db idv = true)
    (huniq : (db.filter fun e => sqlEq (entityId e) idv).length ≤ 1) :
    ∃ e0, SQLAlchemyRepository.get mt idv db = .ok e0 := by
  rw [sqla_get_eq mt idv db hmt]
  have hne : db.filter (fun e => sqlEq (entityId e) idv) ≠ [] := by
    simp only [sqlHasId, List.any_eq_true] at hid
    obtain ⟨x, hx, hpx⟩ := hid
    intro hnil
    have hmem : x ∈ db.filter (fun e => sqlEq (entityId e) idv) := by
      simp [List.mem_filter, hx, hpx]
    rw [hnil] at hmem
    exact absurd hmem (List.not_mem_nil x)
  have hpos : 0 < (db.filter (fun e => sqlEq (entityId e) idv)).length :=
    List.length_pos.mpr hne
  have hlen : (db.filter (fun e => sqlEq (entityId e) idv)).length = 1 := by
    omega
  obtain ⟨e0, hfil⟩ := List.length_eq_one.mp hlen
  rw [hfil]
  exact ⟨e0, rfl⟩

/-- Claim C7: `upsert` behaves exactly as `update` when the argument's
identifier is present in the backing and exactly as `add` with a
pre-assigned identifier permitted when it is absent — for the mock backing
by delegation, and for the SQL backing because `merge`+flush updates the
existing row (as `update` does after its existence check) or inserts a new
one (as `add` does). The SQL half assumes the primary-key invariant that at
most one row carries the identifier, and a model mapping `id`. -/
theorem upsert_is_update_when_present_add_when_absent (mt : ModelType)
    (s : MockState) (r : Ref) (data : EntityData) (genId newId now : Int)
    (db : List EntityData) (hmt : mt.contains "id" = true)
    (huniq : (db.filter fun e =>
      sqlEq (entityId e) (get_id_attribute_value data)).length ≤ 1) :
    (GenericMockRepository.upsert mt s r newId now =
      if dictContains s.collection (get_id_attribute_value (s.read r)) then
        GenericMockRepository.update mt s r now
      else GenericMockRepository.add mt s r true newId now) ∧
    (SQLAlchemyRepository.upsert mt data genId now db =
      if sqlHasId db (get_id_attribute_value data) then
        SQLAlchemyRepository.update mt data now db
      else SQLAlchemyRepository.add mt data genId now db) := by
  refine ⟨rfl, ?_⟩
  by_cases hid : sqlHasId db (get_id_attribute_value data) = true
  · obtain ⟨e0, hget⟩ := sqla_get_ok_of_unique mt _ db hmt hid huniq
    simp only [SQLAlchemyRepository.upsert, SQLAlchemyRepository.update, hid,
      if_true, hget]
  · have hid' : sqlHasId db (get_id_attribute_value data) = false := by
      simpa using hid
    simp [SQLAlchemyRepository.upsert, SQLAlchemyRepository.add, hid']

/-- Witness for C7 at a concrete state: an empty mock backing and an empty
table (both `if` conditions concrete and decidable). -/
theorem upsert_is_update_when_present_add_when_absent_witness :
    (GenericMockRepository.upsert idModel mockEmpty 0 8 9 =
      if dictContains mockEmpty.collection
          (get_id_attribute_value (mockEmpty.read 0)) then
        GenericMockRepository.update idModel mockEmpty 0 9
      else GenericMockRepository.add idModel mockEmpty 0 true 8 9) ∧
    (SQLAlchemyRepository.upsert idModel entity1 7 9 [] =
      if sqlHasId [] (get_id_attribute_value entity1) then
        SQLAlchemyRepository.update idModel entity1 9 []
      else SQLAlchemyRepository.add idModel entity1 7 9 []) :=
  upsert_is_update_when_present_add_when_absent idModel mockEmpty 0 entity1
    7 8 9 [] (by decide) (by simp)

/-- A key present in the identity map stays present as later declarations
register themselves. -/
theorem register_fold_isSome :
    ∀ (decls : List ServiceClass) (m : IdentityMap) (c : ServiceClass),
      ((dictGet m (Service.service_id c)).isSome = true ∨ c ∈ decls) →
      (dictGet (decls.foldl Service.init_subclass m)
        (Service.service_id c)).isSome = true := by
  intro decls
  induction decls with
  | nil =>
    intro m c h
    rcases h with h | h
    · simpa using h
    · exact absurd h (List.not_mem_nil c)
  | cons d rest ih =>
    intro m c h
    rw [List.foldl_cons]
    rcases h with h | h
    · exact ih _ c (Or.inl (dictGet_dictSet_isSome m _ _ d h))
    · rcases List.mem_cons.mp h with h | h
      · refine ih _ c (Or.inl ?_)
        rw [h]
        simp [Service.init_subclass, dictGet_dictSet_self]
      · exact ih _ c (Or.inr h)

/-- Claim C8: each concrete service class declaration computes, at
definition time, an identity equal to its fully-qualified declaration path
(module path joined with the class name by a dot) and registers the class
under that key; consequently, after any sequence of declarations, the
process-wide identity map contains every declared service type under its
reproducible identity. -/
theorem service_registration_populates_identity_map
    (decls : List ServiceClass) (c : ServiceClass) (h : c ∈ decls) :
    Service.service_id c = c.module ++ "." ++ c.name ∧
    (∀ m : IdentityMap,
      dictGet (Service.init_subclass m c) (Service.service_id c) = some c) ∧
    (dictGet (Service.register_all decls) (Service.service_id c)).isSome =
      true := by
  refine ⟨rfl, ?_, ?_⟩
  · intro m
    simp [Service.init_subclass, dictGet_dictSet_self]
  · exact register_fold_isSome decls [] c (Or.inr h)

/-- Witness for C8: one concrete service declaration. -/
theorem service_registration_populates_identity_map_witness :
    Service.service_id ⟨"app.domain", "AuthorService"⟩ =
      "app.domain" ++ "." ++ "AuthorService" ∧
    (∀ m : IdentityMap,
      dictGet (Service.init_subclass m ⟨"app.domain", "AuthorService"⟩)
        (Service.service_id ⟨"app.domain", "AuthorService"⟩) =
      some ⟨"app.domain", "AuthorService"⟩) ∧
    (dictGet (Service.register_all [⟨"app.domain", "AuthorService"⟩])
      (Service.service_id ⟨"app.domain", "AuthorService"⟩)).isSome = true :=
  service_registration_populates_identity_map
    [⟨"app.domain", "AuthorService"⟩] ⟨"app.domain", "AuthorService"⟩
    (by simp)

/-- `getattrModel` fails only with a plain `AttributeError`. -/
theorem getattrModel_error (mt : ModelType) (n : String) (e : PyError)
    (h : getattrModel mt n = .error e) : e = ⟨.attributeError, none⟩ := by
  unfold getattrModel at h
  split at h
  · cases h
  · injection h with h'
    exact h'.symm

/-- The range filter fails only with a plain `AttributeError`. -/
theorem filter_on_datetime_error (mt : ModelType) (fn : String)
    (b a : Option Int) (s : Select) (e : PyError)
    (h : _filter_on_datetime_field mt fn b a s = .error e) :
    e = ⟨.attributeError, none⟩ := by
  unfold _filter_on_datetime_field at h
  cases hg : getattrModel mt fn with
  | error e' =>
    simp only [hg] at h
    injection h with h'
    rw [← h']
    exact getattrModel_error mt fn e' hg
  | ok field =>
    simp only [hg] at h
    split at h <;> cases h

/-- The membership filter fails only with a plain `AttributeError`. -/
theorem filter_in_collection_error (mt : ModelType) (fn : String)
    (vs : List Int) (s : Select) (e : PyError)
    (h : _filter_in_collection mt fn vs s = .error e) :
    e = ⟨.attributeError, none⟩ := by
  unfold _filter_in_collection at h
  split at h
  · cases h
  · cases hg : getattrModel mt fn with
    | error e' =>
      simp only [hg] at h
      injection h with h'
      rw [← h']
      exact getattrModel_error mt fn e' hg
    | ok field =>
      simp only [hg] at h
      cases h

/-- Applying any single filter fails only with a plain `AttributeError`. -/
theorem applyFilter_error_attr (mt : ModelType) (f : FilterTypes) (s : Select)
    (e : PyError) (h : applyFilter mt f s = .error e) :
    e = ⟨.attributeError, none⟩ := by
  cases f with
  | limitOffset l o => simp [applyFilter] at h
  | beforeAfter fn b a => exact filter_on_datetime_error mt fn b a s e h
  | collectionFilter fn vs => exact filter_in_collection_error mt fn vs s e h

/-- Every failure of the positional-filter pipeline is a plain
`AttributeError` (the filter union is closed, so the only failing step is a
column lookup on the model). -/
theorem filter_for_list_err_attribute (mt : ModelType) :
    ∀ (fs : List FilterTypes) (s : Select),
      (∃ s', _filter_for_list mt fs s = .ok s') ∨
        _filter_for_list mt fs s = .error ⟨.attributeError, none⟩ := by
  intro fs
  induction fs with
  | nil => intro s; exact Or.inl ⟨s, rfl⟩
  | cons f rest ih =>
    intro s
    cases happ : applyFilter mt f s with
    | error e =>
      right
      have he := applyFilter_error_attr mt f s e happ
      rw [he] at happ
      simp only [_filter_for_list, happ]
    | ok s1 =>
      have hrest := ih s1
      simpa only [_filter_for_list, happ] using hrest

/-- A keyword equality filter naming an attribute the model does not map
makes the keyword pipeline fail with a plain `AttributeError`. -/
theorem kwargs_missing_attr_error (mt : ModelType) (key : String) (val : PyVal)
    (hkey : mt.contains key = false) :
    ∀ (kwargs : List (String × PyVal)) (s : Select),
      (key, val) ∈ kwargs →
      _filter_select_by_kwargs mt s kwargs = .error ⟨.attributeError, none⟩ := by
  intro kwargs
  induction kwargs with
  | nil =>
    intro s hmem
    exact absurd hmem (List.not_mem_nil _)
  | cons kv rest ih =>
    intro s hmem
    obtain ⟨k0, v0⟩ := kv
    rcases List.mem_cons.mp hmem with heq | hmem'
    · obtain ⟨hk, hv⟩ := Prod.mk.injEq .. ▸ heq
      simp only [_filter_select_by_kwargs, getattrModel, ← hk, hkey,
        Bool.false_eq_true, if_false]
    · simp only [_filter_select_by_kwargs, getattrModel]
      by_cases h0 : mt.contains k0
      · simp only [h0, if_true]
        exact ih _ hmem'
      · simp only [h0, Bool.false_eq_true, if_false]

/-- Claim C10: a `list` call on the SQL backing with an equality keyword
filter whose key names an attribute the model type does not map fails with
a plain, unchained `AttributeError` — never `ConflictError` or the generic
repository error — because the attribute lookup happens while the select is
built, before execution enters the `wrap_sqlalchemy_exception` block. -/
theorem sqla_list_unknown_kwarg_plain_attribute_error (mt : ModelType)
    (filters : List FilterTypes) (kwargs : List (String × PyVal))
    (db : List EntityData) (key : String) (val : PyVal)
    (hkey : mt.contains key = false) (hmem : (key, val) ∈ kwargs) :
    SQLAlchemyRepository.list mt filters kwargs db =
      .error ⟨.attributeError, none⟩ := by
  unfold SQLAlchemyRepository.list
  rcases filter_for_list_err_attribute mt filters _create_select_for_model with
    ⟨s', hs'⟩ | herr
  · simp only [hs', kwargs_missing_attr_error mt key val hkey kwargs s' hmem]
  · simp only [herr]

/-- Witness for C10: a model mapping only `id`, queried with the keyword
filter `nope=1`. -/
theorem sqla_list_unknown_kwarg_plain_attribute_error_witness :
    SQLAlchemyRepository.list idModel [] [("nope", some 1)] [entity1] =
      .error ⟨.attributeError, none⟩ :=
  sqla_list_unknown_kwarg_plain_attribute_error idModel [] [("nope", some 1)]
    [entity1] "nope" (some 1) (by decide) (by simp)

/-- Reading an attribute right after setting it. -/
theorem getattr_setattr_self (e : EntityData) (k : String) (v : PyVal) :
    (e.setattr k v).getattr k = some v :=
  dictGet_dictSet_self e.dict k v

/-- Setting one attribute leaves reads of the others unchanged. -/
theorem getattr_setattr_ne (e : EntityData) (k' k : String) (v : PyVal)
    (h : k' ≠ k) : (e.setattr k' v).getattr k = e.getattr k :=
  dictGet_dictSet_ne e.dict k' k v h

/-- The copy loop never touches an attribute whose name starts with an
underscore. -/
theorem copyPublicAttrs_getattr_underscore (k : String)
    (hk : k.startsWith "_" = true) :
    ∀ (src : List (String × PyVal)) (item : EntityData),
      (copyPublicAttrs src item).getattr k = item.getattr k := by
  intro src
  induction src with
  | nil => intro item; rfl
  | cons p rest ih =>
    intro item
    obtain ⟨k0, v0⟩ := p
    cases h0 : k0.startsWith "_" with
    | true =>
      simp only [copyPublicAttrs, h0, if_true]
      exact ih item
    | false =>
      have hne : k0 ≠ k := by
        intro hEq
        rw [hEq, hk] at h0
        cases h0
      simp only [copyPublicAttrs, h0, Bool.false_eq_true, if_false]
      rw [ih (item.setattr k0 v0)]
      exact getattr_setattr_ne item k0 k v0 hne

/-- The copy loop leaves attributes that are not keys of the source dict
unchanged. -/
theorem copyPublicAttrs_getattr_not_key (k : String) :
    ∀ (src : List (String × PyVal)) (item : EntityData),
      (∀ p ∈ src, p.1 ≠ k) →
      (copyPublicAttrs src item).getattr k = item.getattr k := by
  intro src
  induction src with
  | nil => intro item _; rfl
  | cons p rest ih =>
    intro item hsrc
    obtain ⟨k0, v0⟩ := p
    have hk0 : k0 ≠ k := hsrc (k0, v0) (List.mem_cons_self _ _)
    cases h0 : k0.startsWith "_" with
    | true =>
      simp only [copyPublicAttrs, h0, if_true]
      exact ih item fun p hp => hsrc p (List.mem_cons_of_mem _ hp)
    | false =>
      simp only [copyPublicAttrs, h0, Bool.false_eq_true, if_false]
      rw [ih _ fun p hp => hsrc p (List.mem_cons_of_mem _ hp)]
      exact getattr_setattr_ne item k0 k v0 hk0

/-- Every non-underscore entry of a duplicate-free source dict is copied
onto the item by the copy loop. -/
theorem copyPublicAttrs_getattr_mem (k : String) (v : PyVal) :
    ∀ (src : List (String × PyVal)) (item : EntityData),
      (src.map Prod.fst).Nodup → (k, v) ∈ src → k.startsWith "_" = false →
      (copyPublicAttrs src item).getattr k = some v := by
  intro src
  induction src with
  | nil =>
    intro item _ hmem _
    exact absurd hmem (List.not_mem_nil _)
  | cons p rest ih =>
    intro item hnodup hmem hk
    obtain ⟨k0, v0⟩ := p
    simp only [List.map_cons, List.nodup_cons] at hnodup
    rcases List.mem_cons.mp hmem with heq | hmem'
    · injection heq with h1 h2
      subst h1
      subst h2
      simp only [copyPublicAttrs, hk, Bool.false_eq_true, if_false]
      rw [copyPublicAttrs_getattr_not_key k rest _ ?hnk]
      · exact getattr_setattr_self item k v
      case hnk =>
        intro p hp hpk
        exact hnodup.1 (by rw [← hpk]; exact List.mem_map_of_mem Prod.fst hp)
    · cases h0 : k0.startsWith "_" with
      | true =>
        simp only [copyPublicAttrs, h0, if_true]
        exact ih item hnodup.2 hmem' hk
      | false =>
        simp only [copyPublicAttrs, h0, Bool.false_eq_true, if_false]
        exact ih _ hnodup.2 hmem' hk

/-- Claim C9 (implicit): for a stored entity and an update argument with a
matching identifier, the mock backing's `update` mutates the caller's
argument object itself — stamping its `updated` attribute with the clock
before the copy — copies every attribute of the argument whose name does
not start with an underscore onto the stored entity (so the stored entity
picks the stamped `updated` up too), leaves the stored entity's
underscore-prefixed attributes alone, and returns the stored entity object,
not the argument object passed in. -/
theorem mock_update_mutates_argument_returns_stored (mt : ModelType)
    (s : MockState) (dataRef itemRef : Ref) (now : Int)
    (hfound : dictGet s.collection
      (get_id_attribute_value (s.read dataRef)) = some itemRef)
    (hne : itemRef ≠ dataRef)
    (hup : hasattr mt (s.read dataRef) "updated" = true)
    (hnodup : ((s.read dataRef).dict.map Prod.fst).Nodup) :
    ∃ s' : MockState,
      GenericMockRepository.update mt s dataRef now = .ok (itemRef, s') ∧
      s'.read dataRef = (s.read dataRef).setattr "updated" (some now) ∧
      (∀ k v,
        (k, v) ∈ ((s.read dataRef).setattr "updated" (some now)).dict →
        k.startsWith "_" = false →
        (s'.read itemRef).getattr k = some v) ∧
      (∀ k, k.startsWith "_" = true →
        (s'.read itemRef).getattr k = (s.read itemRef).getattr k) ∧
      itemRef ≠ dataRef := by
  have hnodup' : ((((s.read dataRef).setattr "updated" (some now)).dict.map
      Prod.fst)).Nodup :=
    dictSet_keys_nodup (s.read dataRef).dict "updated" (some now) hnodup
  refine ⟨(s.write dataRef ((s.read dataRef).setattr "updated" (some now))).write
      itemRef
      (copyPublicAttrs
        (((s.write dataRef ((s.read dataRef).setattr "updated"
          (some now)))).read dataRef).dict
        ((s.write dataRef ((s.read dataRef).setattr "updated"
          (some now))).read itemRef)),
    ?_, ?_, ?_, ?_, hne⟩
  · simp only [GenericMockRepository.update,
      GenericMockRepository._find_or_raise_not_found, hfound, check_not_found,
      hup, if_true]
  · simp only [MockState.read_write_self, MockState.read_write_ne _ _ _ _ hne,
      MockState.read_write_ne _ _ _ _ (Ne.symm hne)]
  · intro k v hmem hk
    simp only [MockState.read_write_self, MockState.read_write_ne _ _ _ _ hne,
      MockState.read_write_ne _ _ _ _ (Ne.symm hne)]
    exact copyPublicAttrs_getattr_mem k v _ _ hnodup' hmem hk
  · intro k hk
    simp only [MockState.read_write_self, MockState.read_write_ne _ _ _ _ hne,
      MockState.read_write_ne _ _ _ _ (Ne.symm hne)]
    exact copyPublicAttrs_getattr_underscore k hk _ _

/-- Witness for C9: a two-object heap — the stored record at cell 0, the
update argument (same identifier 1, a fresh `name`, and a private
`_sa_instance_state`) at cell 1. -/
def mockUpdateState : MockState :=
  ⟨fun r =>
    if r = 1 then ⟨[("id", some 1), ("name", some 3), ("_sa_instance_state", some 9)]⟩
    else ⟨[("id", some 1)]⟩,
  [(some 1, 0)]⟩

/-- Witness for C9 at `mockUpdateState`, with the argument at cell 1 and the
stored record at cell 0. -/
theorem mock_update_mutates_argument_returns_stored_witness :
    ∃ s' : MockState,
      GenericMockRepository.update ["id", "updated"] mockUpdateState 1 42 =
        .ok (0, s') ∧
      s'.read 1 = (mockUpdateState.read 1).setattr "updated" (some 42) ∧
      (∀ k v,
        (k, v) ∈ ((mockUpdateState.read 1).setattr "updated" (some 42)).dict →
        k.startsWith "_" = false →
        (s'.read 0).getattr k = some v) ∧
      (∀ k, k.startsWith "_" = true →
        (s'.read 0).getattr k = (mockUpdateState.read 0).getattr k) ∧
      (0 : Ref) ≠ 1 :=
  mock_update_mutates_argument_returns_stored ["id", "updated"]
    mockUpdateState 1 0 42 (by decide) (by decide) (by decide) (by decide)
